import Mathlib

/-!
Verification of the hourly-climatology aggregation in
`wrrPaper-fig01-BeersLaw.ipynb`.

The notebook builds a pandas dataframe `df` indexed by timestamps rounded to
whole hours (seconds since 1990-01-01 00:00) and defines

  def calcHourlyMean(data, time_start, time_end):
      date_start = pd.Timestamp(time_start)
      date_end = pd.Timestamp(time_end)
      date_use = []
      for i in range(0,len(df.index)):
          if df.index[i] >= date_start and df.index[i] <= date_end:
              date_use.append(i)
      hourlyMean = df[date_start:date_end].groupby(df[date_start:date_end].index.hour).mean()
      return hourlyMean

Embedding choices, all taken from the source:
* Timestamps are whole hours since the epoch 1990-01-01 00:00 (the notebook
  rounds its index with `df.index.round('H')` before `calcHourlyMean` is
  defined), so a timestamp is a natural number of hours and the clock hour
  of day is `t % 24` (the epoch is a midnight).
* Values are modelled as rationals; the notebook treats them as opaque
  measurements.
* `df[date_start:date_end]` on the monotone datetime index keeps exactly the
  rows whose timestamp `t` satisfies `date_start ≤ t ≤ date_end`
  (pandas label slicing is inclusive at both ends).
* `groupby(index.hour).mean()` produces one row per hour value that actually
  occurs in the selected rows, with keys sorted ascending, each carrying the
  arithmetic mean of the values in that group; hours with no rows are absent
  from the result.
* The function body reads the module-level `df`, never its `data` parameter,
  and mutates nothing, which the state-passing wrapper below makes explicit.
-/

/-- A timestamp: whole hours since 1990-01-01 00:00. -/
abbrev Timestamp : Type := ℕ

/-- Clock hour of day of a timestamp (`index.hour` in the source); the epoch
is a midnight, so it is the residue mod 24. -/
def hourOfDay (t : Timestamp) : ℕ := t % 24

/-- A time-indexed numeric series: (timestamp, value) pairs. -/
abbrev TimeSeries : Type := List (Timestamp × ℚ)

/-- A closed date interval; `stop` models the interval's end date. -/
structure DateInterval where
  start : Timestamp
  stop : Timestamp
deriving DecidableEq, Repr

/-- The rows of `s` selected by `df[date_start:date_end]`: pandas label
slicing on the monotone datetime index keeps a row iff
`start ≤ timestamp ≤ stop`, inclusive at both ends. -/
def includedEntries (s : TimeSeries) (iv : DateInterval) : TimeSeries :=
  s.filter (fun e => decide (iv.start ≤ e.1 ∧ e.1 ≤ iv.stop))

/-- The values of `s` whose timestamp has clock hour `h`: one
`groupby(index.hour)` group. -/
def bucketValues (s : TimeSeries) (h : ℕ) : List ℚ :=
  (s.filter (fun e => hourOfDay e.1 == h)).map Prod.snd

/-- The result row of `groupby(index.hour).mean()` for hour `h`: absent when
the group is empty, otherwise the arithmetic mean of the group. -/
def hourMeanEntry (s : TimeSeries) (h : ℕ) : Option (ℕ × ℚ) :=
  if bucketValues s h = [] then none
  else some (h, (bucketValues s h).sum / ((bucketValues s h).length : ℚ))

/-- `groupby(index.hour).mean()`: one row per hour value occurring in `s`,
keys ascending (pandas sorts group keys), each row the group mean. -/
def groupMeanByHour (s : TimeSeries) : List (ℕ × ℚ) :=
  (List.range 24).filterMap (hourMeanEntry s)

/-- The spec's `compute(series, interval)`: restrict to the interval, group
by hour of day, take each group's mean. -/
def compute (series : TimeSeries) (iv : DateInterval) : List (ℕ × ℚ) :=
  groupMeanByHour (includedEntries series iv)

/-- `calcHourlyMean` from the notebook. `df` is the module-level dataframe
the body actually reads; `data` is the declared first parameter, which the
body never uses. `date_use` reproduces the index-collecting loop; its value
is dead. -/
def calcHourlyMean (df : TimeSeries) (data : TimeSeries)
    (time_start time_stop : Timestamp) : List (ℕ × ℚ) :=
  let date_start := time_start
  let date_stop := time_stop
  let date_use := (List.range df.length).filter
    (fun i => decide (date_start ≤ (df.getD i (0, 0)).1 ∧
      (df.getD i (0, 0)).1 ≤ date_stop))
  groupMeanByHour (df.filter (fun e => decide (date_start ≤ e.1 ∧
    e.1 ≤ date_stop)))

/-- Modelled from the spec: `calcHourlyMean` with the index-collecting loop
removed, i.e. the filter-then-group step alone ("a correct reimplementation
needs only the filter-then-group step"). -/
def calcHourlyMean_noLoop (df : TimeSeries) (data : TimeSeries)
    (time_start time_stop : Timestamp) : List (ℕ × ℚ) :=
  groupMeanByHour (df.filter (fun e => decide (time_start ≤ e.1 ∧
    e.1 ≤ time_stop)))

/-- The module state visible to `calcHourlyMean`: the global dataframe. -/
structure ModuleState where
  df : TimeSeries
deriving DecidableEq

/-- One call to `calcHourlyMean`, with the module state threaded explicitly:
the body only reads `df` (slicing, `groupby` and `mean` all allocate fresh
objects), so the state after the call is the state before it. -/
def calcHourlyMeanCall (st : ModuleState) (data : TimeSeries)
    (time_start time_stop : Timestamp) : (List (ℕ × ℚ)) × ModuleState :=
  (calcHourlyMean st.df data time_start time_stop, st)

/-- A sequence of calls to `calcHourlyMean`, threading the module state. -/
def runCalls : ModuleState → List (TimeSeries × Timestamp × Timestamp) →
    (List (List (ℕ × ℚ))) × ModuleState
  | st, [] => ([], st)
  | st, c :: cs =>
    let step := calcHourlyMeanCall st c.1 c.2.1 c.2.2
    let rest := runCalls step.2 cs
    (step.1 :: rest.1, rest.2)

/-- Leap year in the proleptic Gregorian calendar. -/
def isLeapYear (y : ℕ) : Bool :=
  (y % 4 == 0 && y % 100 != 0) || (y % 400 == 0)

/-- Number of days in month `m` (1–12) of year `y`. -/
def daysInMonth (y m : ℕ) : ℕ :=
  if m = 2 then (if isLeapYear y then 29 else 28)
  else if m = 4 ∨ m = 6 ∨ m = 9 ∨ m = 11 then 30
  else 31

/-- Days from the epoch 1990-01-01 to the civil date `y-m-d` (for dates on or
after the epoch). -/
def daysSinceEpoch (y m d : ℕ) : ℕ :=
  ((List.range (y - 1990)).map (fun k => if isLeapYear (1990 + k) then 366 else 365)).sum
  + ((List.range (m - 1)).map (fun k => daysInMonth y (k + 1))).sum
  + (d - 1)

/-- The timestamp of clock hour `h` on the civil date `y-m-d`. -/
def mkTimestamp (y m d h : ℕ) : Timestamp :=
  24 * daysSinceEpoch y m d + h

/-! ### Helper lemmas -/

theorem hourOfDay_lt (t : Timestamp) : hourOfDay t < 24 :=
  Nat.mod_lt _ (by omega)

theorem mem_includedEntries (s : TimeSeries) (iv : DateInterval)
    (e : Timestamp × ℚ) :
    e ∈ includedEntries s iv ↔ e ∈ s ∧ iv.start ≤ e.1 ∧ e.1 ≤ iv.stop := by
  simp [includedEntries, List.mem_filter]

theorem bucketValues_ne_nil_iff (s : TimeSeries) (h : ℕ) :
    bucketValues s h ≠ [] ↔ ∃ e ∈ s, hourOfDay e.1 = h := by
  unfold bucketValues
  rw [Ne, List.map_eq_nil_iff, List.filter_eq_nil_iff]
  push_neg
  simp

theorem bucketValues_eq_nil_of_ge (s : TimeSeries) (h : ℕ) (hh : 24 ≤ h) :
    bucketValues s h = [] := by
  by_contra hc
  obtain ⟨e, _, he⟩ := (bucketValues_ne_nil_iff s h).mp hc
  have := hourOfDay_lt e.1
  omega

theorem hourMeanEntry_eq_some (s : TimeSeries) (a : ℕ) (p : ℕ × ℚ) :
    hourMeanEntry s a = some p ↔
      bucketValues s a ≠ [] ∧
      p = (a, (bucketValues s a).sum / ((bucketValues s a).length : ℚ)) := by
  unfold hourMeanEntry
  split <;> simp_all
  exact eq_comm

theorem mem_groupMeanByHour (s : TimeSeries) (h : ℕ) (v : ℚ) :
    (h, v) ∈ groupMeanByHour s ↔
      bucketValues s h ≠ [] ∧
      v = (bucketValues s h).sum / ((bucketValues s h).length : ℚ) := by
  unfold groupMeanByHour
  rw [List.mem_filterMap]
  constructor
  · rintro ⟨a, _, hfa⟩
    obtain ⟨hne, hp⟩ := (hourMeanEntry_eq_some s a _).mp hfa
    obtain ⟨h1, h2⟩ := Prod.mk.injEq .. ▸ hp
    subst h1
    exact ⟨hne, h2⟩
  · rintro ⟨hne, hv⟩
    refine ⟨h, List.mem_range.mpr ?_, ?_⟩
    · by_contra hge
      exact hne (bucketValues_eq_nil_of_ge s h (by omega))
    · exact (hourMeanEntry_eq_some s h _).mpr ⟨hne, by rw [hv]⟩

theorem groupMeanByHour_pairwise (s : TimeSeries) :
    (groupMeanByHour s).Pairwise (fun p q => p.1 < q.1) := by
  unfold groupMeanByHour
  refine List.Pairwise.filterMap _ ?_ (List.pairwise_lt_range 24)
  intro a b hab x hx y hy
  obtain ⟨_, hpx⟩ := (hourMeanEntry_eq_some s a x).mp hx
  obtain ⟨_, hpy⟩ := (hourMeanEntry_eq_some s b y).mp hy
  rw [hpx, hpy]
  exact hab

theorem bucketValues_perm (s1 s2 : TimeSeries) (hp : s1.Perm s2) (h : ℕ) :
    (bucketValues s1 h).Perm (bucketValues s2 h) :=
  (hp.filter _).map _

theorem hourMeanEntry_perm (s1 s2 : TimeSeries) (hp : s1.Perm s2) :
    hourMeanEntry s1 = hourMeanEntry s2 := by
  funext h
  have hb := bucketValues_perm s1 s2 hp h
  have hlen : (bucketValues s1 h).length = (bucketValues s2 h).length :=
    hb.length_eq
  have hsum : (bucketValues s1 h).sum = (bucketValues s2 h).sum := hb.sum_eq
  unfold hourMeanEntry
  by_cases hc : bucketValues s2 h = []
  · have hc1 : bucketValues s1 h = [] := by
      rw [← List.length_eq_zero] at hc ⊢
      omega
    simp [hc, hc1]
  · have hc1 : bucketValues s1 h ≠ [] := by
      intro h0
      apply hc
      rw [← List.length_eq_zero] at h0 ⊢
      omega
    simp [hc, hc1, hsum, hlen]

theorem groupMeanByHour_perm (s1 s2 : TimeSeries) (hp : s1.Perm s2) :
    groupMeanByHour s1 = groupMeanByHour s2 := by
  unfold groupMeanByHour
  rw [hourMeanEntry_perm s1 s2 hp]

/-! ### Claim theorems -/

/-- C1: an entry contributes to the result iff its timestamp satisfies
`interval.start ≤ timestamp ≤ interval.end`, inclusive at both boundaries:
membership in the selected rows is exactly the inclusive comparison, and the
result is computed from the selected rows alone. -/
theorem C1_filter_inclusive (s : TimeSeries) (iv : DateInterval) :
    (∀ e : Timestamp × ℚ,
      e ∈ includedEntries s iv ↔ e ∈ s ∧ iv.start ≤ e.1 ∧ e.1 ≤ iv.stop) ∧
    compute s iv = groupMeanByHour (includedEntries s iv) :=
  ⟨fun e => mem_includedEntries s iv e, rfl⟩

/-- C1 witness: entries whose timestamps equal the interval boundaries are
both included. -/
theorem C1_filter_inclusive_witness :
    ((100, (1:ℚ)) ∈ includedEntries [(100, 1), (200, 2)] ⟨100, 200⟩) ∧
    ((200, (2:ℚ)) ∈ includedEntries [(100, 1), (200, 2)] ⟨100, 200⟩) :=
  ⟨((C1_filter_inclusive [(100, 1), (200, 2)] ⟨100, 200⟩).1 (100, 1)).mpr
      ⟨by decide, by decide, by decide⟩,
   ((C1_filter_inclusive [(100, 1), (200, 2)] ⟨100, 200⟩).1 (200, 2)).mpr
      ⟨by decide, by decide, by decide⟩⟩

/-- C2 counterexample: for the empty series and the valid interval
`[0, 5]` the result has zero buckets, not 24. -/
theorem C2_counterexample :
    (0:ℕ) ≤ 5 ∧ compute [] ⟨0, 5⟩ = [] ∧ (compute [] ⟨0, 5⟩).length ≠ 24 :=
  ⟨by decide, by decide, by decide⟩

/-- C2 amended: the result has one bucket per hour of day with at least one
contributing entry, keys strictly ascending; hours with no contributing
entries are omitted rather than reported as no-data, and for the empty series
the result is empty. -/
theorem C2_amended_buckets (s : TimeSeries) (iv : DateInterval) :
    compute [] iv = [] ∧
    (compute s iv).Pairwise (fun p q => p.1 < q.1) ∧
    (∀ h v, (h, v) ∈ compute s iv →
      h < 24 ∧ ∃ e ∈ includedEntries s iv, hourOfDay e.1 = h) ∧
    (∀ h, (∃ e ∈ includedEntries s iv, hourOfDay e.1 = h) →
      ∃ v, (h, v) ∈ compute s iv) := by
  refine ⟨?_, groupMeanByHour_pairwise _, ?_, ?_⟩
  · have h0 : includedEntries [] iv = [] := rfl
    show groupMeanByHour (includedEntries [] iv) = []
    rw [h0]
    decide
  · intro h v hv
    obtain ⟨hne, _⟩ := (mem_groupMeanByHour _ h v).mp hv
    refine ⟨?_, (bucketValues_ne_nil_iff _ h).mp hne⟩
    by_contra hge
    exact hne (bucketValues_eq_nil_of_ge _ h (by omega))
  · intro h he
    have hne := (bucketValues_ne_nil_iff (includedEntries s iv) h).mpr he
    exact ⟨_, (mem_groupMeanByHour _ h _).mpr ⟨hne, rfl⟩⟩

/-- C2 amended witness: the empty series gives the empty result; a singleton
series gives an ascending result whose only key is its entry's hour. -/
theorem C2_amended_buckets_witness :
    compute [] ⟨0, 5⟩ = [] ∧
    (compute [(14, (5:ℚ))] ⟨0, 100⟩).Pairwise (fun p q => p.1 < q.1) ∧
    (14:ℕ) < 24 := by
  have hmem : ((14:ℕ), (5:ℚ)) ∈ compute [(14, 5)] ⟨0, 100⟩ := by
    norm_num [compute, includedEntries, groupMeanByHour, List.range_succ,
      List.filterMap_cons, hourMeanEntry, bucketValues, hourOfDay]
  exact ⟨(C2_amended_buckets [] ⟨0, 5⟩).1,
    (C2_amended_buckets [(14, (5:ℚ))] ⟨0, 100⟩).2.1,
    ((C2_amended_buckets [(14, (5:ℚ))] ⟨0, 100⟩).2.2.1 14 5 hmem).1⟩

/-- C3: `calcHourlyMean` ignores its `data` parameter and reads the
module-level dataframe: any two `data` arguments give equal results, and the
result is the pure function `compute` of the module-level series alone. -/
theorem C3_reads_global (df d1 d2 : TimeSeries) (s e : Timestamp) :
    calcHourlyMean df d1 s e = calcHourlyMean df d2 s e ∧
    calcHourlyMean df d1 s e = compute df ⟨s, e⟩ :=
  ⟨rfl, rfl⟩

/-- The concrete series of the C4 scenario: entries at 2006-01-15 14:00 and
15:00 with values 10 and 20, and at 2007-01-15 14:00 with value 30. -/
def series_C4 : TimeSeries :=
  [(mkTimestamp 2006 1 15 14, 10), (mkTimestamp 2006 1 15 15, 20),
   (mkTimestamp 2007 1 15 14, 30)]

/-- The concrete interval of the C4 scenario: 2005-10-01 to 2006-09-30. -/
def interval_C4 : DateInterval :=
  { start := mkTimestamp 2005 10 1 0, stop := mkTimestamp 2006 9 30 0 }

/-- C4: on the concrete scenario the result is bucket 14 ↦ 10 and bucket
15 ↦ 20, every other bucket absent (no-data), and the 2007 entry is not
selected. -/
theorem C4_concrete :
    compute series_C4 interval_C4 = [(14, 10), (15, 20)] ∧
    (mkTimestamp 2007 1 15 14, (30:ℚ)) ∉ includedEntries series_C4 interval_C4 := by
  have hs : series_C4 = [(140606, 10), (140607, 20), (149366, 30)] := by decide
  have hi : interval_C4 = ⟨138048, 146784⟩ := by decide
  have ht : mkTimestamp 2007 1 15 14 = 149366 := by decide
  rw [hs, hi, ht]
  constructor
  · norm_num [compute, includedEntries, groupMeanByHour, List.range_succ,
      List.filterMap_cons, hourMeanEntry, bucketValues, hourOfDay]
  · decide

/-- C5: every bucket with at least one included entry carries exactly the
arithmetic mean of the included values whose clock hour equals that bucket. -/
theorem C5_bucket_mean (s : TimeSeries) (iv : DateInterval) (h : ℕ)
    (hne : bucketValues (includedEntries s iv) h ≠ []) :
    ((h, (bucketValues (includedEntries s iv) h).sum /
        ((bucketValues (includedEntries s iv) h).length : ℚ)) ∈ compute s iv) ∧
    ∀ v, (h, v) ∈ compute s iv →
      v = (bucketValues (includedEntries s iv) h).sum /
        ((bucketValues (includedEntries s iv) h).length : ℚ) :=
  ⟨(mem_groupMeanByHour _ h _).mpr ⟨hne, rfl⟩,
   fun v hv => ((mem_groupMeanByHour _ h v).mp hv).2⟩

/-- C5 witness: two entries in bucket 14 with values 0 and 100 give the
bucket mean 50. -/
theorem C5_bucket_mean_witness :
    ((14:ℕ), (50:ℚ)) ∈ compute [(14, 0), (38, 100)] ⟨0, 100⟩ := by
  have h50 : (bucketValues (includedEntries [(14, (0:ℚ)), (38, 100)] ⟨0, 100⟩) 14).sum /
      ((bucketValues (includedEntries [(14, (0:ℚ)), (38, 100)] ⟨0, 100⟩) 14).length : ℚ)
      = 50 := by
    norm_num [bucketValues, includedEntries, hourOfDay]
  have hm := (C5_bucket_mean [(14, 0), (38, 100)] ⟨0, 100⟩ 14 (by decide)).1
  rw [h50] at hm
  exact hm

/-- C6: the index-collecting loop is dead logic: `calcHourlyMean` with the
loop removed returns the same result on every input. -/
theorem C6_dead_loop (df data : TimeSeries) (s e : Timestamp) :
    calcHourlyMean df data s e = calcHourlyMean_noLoop df data s e := rfl

/-- C7: permuting the entries of the input series, keeping each timestamp
paired with its value, does not change the result. -/
theorem C7_perm_invariant (s1 s2 : TimeSeries) (iv : DateInterval)
    (hp : s1.Perm s2) : compute s1 iv = compute s2 iv :=
  groupMeanByHour_perm _ _ (hp.filter _)

/-- C7 witness: swapping the two entries of a series leaves the result
unchanged. -/
theorem C7_perm_invariant_witness :
    compute [(1, (5:ℚ)), (2, 7)] ⟨0, 10⟩ = compute [(2, (7:ℚ)), (1, 5)] ⟨0, 10⟩ :=
  C7_perm_invariant _ _ _ (by decide)

/-- C8: a call never mutates the module state (the underlying series is
unchanged), and any sequence of calls returns, call by call, the value
computed from the initial state, so order and repetition do not interfere. -/
theorem C8_no_side_effects (st : ModuleState)
    (calls : List (TimeSeries × Timestamp × Timestamp)) :
    (runCalls st calls).2 = st ∧
    (runCalls st calls).1 =
      calls.map (fun c => calcHourlyMean st.df c.1 c.2.1 c.2.2) := by
  induction calls with
  | nil => exact ⟨rfl, rfl⟩
  | cons c cs ih =>
    refine ⟨ih.1, ?_⟩
    show (calcHourlyMean st.df c.1 c.2.1 c.2.2) :: (runCalls st cs).1 = _
    rw [List.map_cons, ih.2]

/-- C9: no input validation: a malformed interval with start > end selects no
entries and produces the empty result; the function is total, so no error is
raised. -/
theorem C9_degenerate_interval (s : TimeSeries) (iv : DateInterval)
    (hlt : iv.stop < iv.start) :
    includedEntries s iv = [] ∧ compute s iv = [] := by
  have h1 : includedEntries s iv = [] := by
    unfold includedEntries
    rw [List.filter_eq_nil_iff]
    intro e _
    simp only [decide_eq_true_eq]
    intro hc
    exact absurd (hc.1.trans hc.2) (not_le.mpr hlt)
  refine ⟨h1, ?_⟩
  show groupMeanByHour (includedEntries s iv) = []
  rw [h1]
  decide

/-- C9 witness: for the interval [10, 2] with start > end, a nonempty series
yields the empty result. -/
theorem C9_degenerate_interval_witness :
    compute [(5, (1:ℚ))] ⟨10, 2⟩ = [] :=
  (C9_degenerate_interval [(5, 1)] ⟨10, 2⟩ (by decide)).2

/-- C10: the bucket keys of the result are exactly the distinct clock hours
of the included entries, in strictly ascending order; empty buckets do not
appear, and with no included entries the result is empty. -/
theorem C10_keys_present_hours (s : TimeSeries) (iv : DateInterval) :
    (∀ h, (∃ v, (h, v) ∈ compute s iv) ↔
      ∃ e ∈ includedEntries s iv, hourOfDay e.1 = h) ∧
    (compute s iv).Pairwise (fun p q => p.1 < q.1) ∧
    (includedEntries s iv = [] → compute s iv = []) := by
  refine ⟨?_, groupMeanByHour_pairwise _, ?_⟩
  · intro h
    constructor
    · rintro ⟨v, hv⟩
      exact (bucketValues_ne_nil_iff _ h).mp ((mem_groupMeanByHour _ h v).mp hv).1
    · intro he
      have hne := (bucketValues_ne_nil_iff (includedEntries s iv) h).mpr he
      exact ⟨_, (mem_groupMeanByHour _ h _).mpr ⟨hne, rfl⟩⟩
  · intro h0
    show groupMeanByHour (includedEntries s iv) = []
    rw [h0]
    decide

/-- C10 witness: a series whose sole entry lies outside the interval has no
included entries and the result is empty; a singleton included entry gives an
ascending result. -/
theorem C10_keys_present_hours_witness :
    compute [(7, (2:ℚ))] ⟨20, 30⟩ = [] ∧
    (compute [(14, (3:ℚ))] ⟨0, 100⟩).Pairwise (fun p q => p.1 < q.1) :=
  ⟨(C10_keys_present_hours [(7, 2)] ⟨20, 30⟩).2.2 (by decide),
   (C10_keys_present_hours [(14, 3)] ⟨0, 100⟩).2.1⟩
